import Mathlib

/-!
Shallow embedding of the Empathy Engine core (src/empathy_engine.py):
emotion-to-voice parameter mapping, intensity estimation, intensity
scaling, and the fallback sentiment heuristic.  Python floats are
modelled by exact rationals; Python ints by Int; Python strings by
String (char lists for substring search); Python dicts by association
lists with List.lookup.
-/

/-- Voice modulation parameters, mirroring the VoiceParameters dataclass:
rate in words per minute, pitch adjustment, volume level, emphasis tag. -/
structure VoiceParameters where
  rate : Int
  pitch : ℚ
  volume : ℚ
  emphasis : String

/-- Emotion detection result, mirroring the EmotionResult dataclass. -/
structure EmotionResult where
  emotion : String
  confidence : ℚ
  intensity : ℚ

/-- Whether the first char list is a leading segment of the second
(the base case of Python's substring containment test). -/
def chPre : List Char → List Char → Bool
  | [], _ => true
  | _ :: _, [] => false
  | a :: as, b :: bs => a == b && chPre as bs

/-- Whether the first char list occurs contiguously inside the second:
the meaning of Python's `m in t` on strings. -/
def chSub (m : List Char) : List Char → Bool
  | [] => chPre m []
  | c :: r => chPre m (c :: r) || chSub m r

/-- The lower-cased character sequence of a text: `text.lower()`. -/
def lowerData (t : String) : List Char := t.data.map Char.toLower

/-- High-intensity markers from `_calculate_intensity` (adds 0.3 each). -/
def highMarkers : List String :=
  ["!!!", "amazing", "incredible", "fantastic", "terrible", "awful", "furious", "ecstatic"]

/-- Medium-intensity markers from `_calculate_intensity` (adds 0.1 each). -/
def mediumMarkers : List String :=
  ["!", "great", "good", "bad", "upset", "happy", "sad"]

/-- Low-intensity markers declared in `_calculate_intensity`; the code
defines them but never iterates over them. -/
def lowMarkers : List String :=
  [".", "okay", "fine", "alright"]

/-- Uppercase-letter ratio of a text with guarded denominator:
`sum(1 for c in text if c.isupper()) / max(1, len(text))`. -/
def capsFrac (t : String) : ℚ :=
  ((t.data.filter Char.isUpper).length : ℚ) / (max 1 t.data.length : ℚ)

/-- The caps bonus added by `_calculate_intensity`: 0.2 when the
uppercase ratio exceeds 0.3, otherwise nothing. -/
def capsBonus (t : String) : ℚ :=
  if 3/10 < capsFrac t then 2/10 else 0

/-- `EmotionDetector._calculate_intensity`: start from the base
confidence, add 0.3 (clamped at 1.0) for each high marker found in the
lower-cased text, then 0.1 (clamped) for each medium marker, then 0.2
(clamped) if the caps ratio exceeds 0.3, and finally clamp into
[0.1, 1.0].  The low-marker list is unused, as in the source. -/
def calculateIntensity (text : String) (baseConfidence : ℚ) : ℚ :=
  let textLower := lowerData text
  let s1 := highMarkers.foldl
    (fun s m => if chSub m.data textLower then min 1 (s + 3/10) else s) baseConfidence
  let s2 := mediumMarkers.foldl
    (fun s m => if chSub m.data textLower then min 1 (s + 1/10) else s) s1
  let s3 := if 3/10 < capsFrac text then min 1 (s2 + 2/10) else s2
  max (1/10) (min 1 s3)

/-- How many markers of a list occur in a lower-cased text. -/
def countMatched (markers : List String) (textLower : List Char) : ℕ :=
  (markers.filter (fun m => chSub m.data textLower)).length

/-- The specification's closed form for the intensity estimate:
base confidence plus 0.3 per matched high marker plus 0.1 per matched
medium marker plus the caps bonus, clamped into [0.1, 1.0] at the end. -/
def intensitySpec (text : String) (baseConfidence : ℚ) : ℚ :=
  max (1/10) (min 1 (baseConfidence
    + 3/10 * (countMatched highMarkers (lowerData text) : ℚ)
    + 1/10 * (countMatched mediumMarkers (lowerData text) : ℚ)
    + capsBonus text))

/-- Positive word list of `_basic_sentiment_analysis`. -/
def positiveWords : List String :=
  ["good", "great", "excellent", "amazing", "wonderful", "fantastic", "love", "happy"]

/-- Negative word list of `_basic_sentiment_analysis`. -/
def negativeWords : List String :=
  ["bad", "terrible", "awful", "hate", "sad", "angry", "frustrated", "annoying"]

/-- `sum(1 for word in positive_words if word in text_lower)`. -/
def posCount (t : String) : ℕ :=
  (positiveWords.filter (fun w => chSub w.data (lowerData t))).length

/-- `sum(1 for word in negative_words if word in text_lower)`. -/
def negCount (t : String) : ℕ :=
  (negativeWords.filter (fun w => chSub w.data (lowerData t))).length

/-- `EmotionDetector._basic_sentiment_analysis`: compare positive and
negative word counts and return one of three fixed results. -/
def basicSentimentAnalysis (t : String) : EmotionResult :=
  if negCount t < posCount t then ⟨"happy", 7/10, 6/10⟩
  else if posCount t < negCount t then ⟨"angry", 7/10, 6/10⟩
  else ⟨"neutral", 8/10, 3/10⟩

/-- The raw-label normalization table `emotions_map` of EmotionDetector. -/
def emotionsMap : List (String × String) :=
  [("joy", "happy"), ("sadness", "sad"), ("anger", "angry"), ("fear", "worried"),
   ("surprise", "surprised"), ("disgust", "disgusted"), ("neutral", "neutral")]

/-- `EmotionDetector.detect_emotion`.  The external classifier is
modelled as an optional function (None when the model failed to load)
that either raises (Except.error) or returns a raw label and score.
On any failure the method falls through to the fallback heuristic,
mirroring the try/except in the source. -/
def detectEmotion (classifier : Option (String → Except String (String × ℚ)))
    (text : String) : EmotionResult :=
  match classifier with
  | none => basicSentimentAnalysis text
  | some f =>
    match f text with
    | Except.error _ => basicSentimentAnalysis text
    | Except.ok (labelRaw, confidence) =>
      let emotionRaw := labelRaw.map Char.toLower
      let emotion := (emotionsMap.lookup emotionRaw).getD "neutral"
      let intensity := calculateIntensity text confidence
      ⟨emotion, confidence, intensity⟩

/-- The static emotion-to-base-parameters table
`EmpathyEngine._initialize_voice_mappings`. -/
def voiceMappings : List (String × VoiceParameters) :=
  [("happy", ⟨220, 10, 95/100, "strong"⟩),
   ("excited", ⟨240, 15, 1, "strong"⟩),
   ("sad", ⟨160, -10, 7/10, "none"⟩),
   ("angry", ⟨200, 5, 9/10, "strong"⟩),
   ("worried", ⟨180, -5, 8/10, "moderate"⟩),
   ("surprised", ⟨210, 12, 9/10, "strong"⟩),
   ("disgusted", ⟨170, -8, 8/10, "none"⟩),
   ("neutral", ⟨200, 0, 85/100, "none"⟩)]

/-- Step 2 of `EmpathyEngine.process_text`:
`self.voice_mappings.get(emotion, self.voice_mappings['neutral'])`.
The inner match models the dict access for the default argument;
its nil branch is unreachable since "neutral" is in the table. -/
def baseFor (emotion : String) : VoiceParameters :=
  match voiceMappings.lookup emotion with
  | some v => v
  | none =>
    match voiceMappings.lookup "neutral" with
    | some v => v
    | none => ⟨200, 0, 85/100, "none"⟩

/-- Truncation toward zero, the meaning of Python's `int()` on a float. -/
def qTrunc (q : ℚ) : ℤ := if 0 ≤ q then ⌊q⌋ else ⌈q⌉

/-- `EmpathyEngine._apply_intensity_scaling`: construct the scaled
parameters (rate truncated by `int(...)`, volume pre-clamped at 1.0,
emphasis gated at intensity 0.6), then clamp rate to [100, 300],
pitch to [-50, 50] and volume to [0.1, 1.0] as the source does by
field reassignment. -/
def applyIntensityScaling (base : VoiceParameters) (intensity : ℚ) : VoiceParameters :=
  let rate0 : Int := qTrunc ((base.rate : ℚ) + ((base.rate : ℚ) - 200) * intensity * (1/2))
  let pitch0 : ℚ := base.pitch * (1 + intensity * (1/2))
  let volume0 : ℚ := min 1 (base.volume + (intensity - 1/2) * (2/10))
  let emphasis0 : String := if 6/10 < intensity then base.emphasis else "none"
  ⟨max 100 (min 300 rate0),
   max (-50) (min 50 pitch0),
   max (1/10) (min 1 volume0),
   emphasis0⟩

/-- The rate field as the specification words it: the scaling formula
clamped to [100, 300] and rounded to the nearest integer. -/
def rateClaimed (base : VoiceParameters) (intensity : ℚ) : ℤ :=
  round (max (100 : ℚ) (min 300 ((base.rate : ℚ) + ((base.rate : ℚ) - 200) * intensity * (1/2))))

theorem min1_min1_add (x e : ℚ) (he : 0 ≤ e) : min 1 (min 1 x + e) = min 1 (x + e) := by
  rcases le_total x 1 with h | h
  · rw [min_eq_right h]
  · rw [min_eq_left h, min_eq_left (by linarith), min_eq_left (by linarith)]

theorem min1_idem (x : ℚ) : min 1 (min 1 x) = min 1 x := by
  rw [← min_assoc, min_self]

theorem foldl_clamp {α : Type} (p : α → Bool) (d : ℚ) (hd : 0 ≤ d) (l : List α) (s : ℚ) :
    l.foldl (fun a m => if p m then min 1 (a + d) else a) s
      = if (l.filter p).length = 0 then s
        else min 1 (s + d * ((l.filter p).length : ℚ)) := by
  induction l generalizing s with
  | nil => simp
  | cons m rest ih =>
    by_cases hm : p m
    · rw [List.foldl_cons, if_pos hm, ih, List.filter_cons_of_pos hm]
      by_cases hk : (rest.filter p).length = 0
      · rw [if_pos hk]
        simp [hk]
      · rw [if_neg hk, if_neg (by simp)]
        have hne : ((m :: rest.filter p).length : ℚ) = (rest.filter p).length + 1 := by
          push_cast [List.length_cons]
          ring
        rw [hne]
        rcases le_total (s + d) 1 with hc | hc
        · rw [min_eq_right hc]
          ring_nf
        · have hnn : (0:ℚ) ≤ d * (rest.filter p).length := by positivity
          rw [min_eq_left hc, min_eq_left (by linarith), min_eq_left (by nlinarith)]
    · rw [List.foldl_cons, if_neg hm, ih, List.filter_cons_of_neg hm]

theorem min1_foldl_add {α : Type} (p : α → Bool) (d : ℚ) (hd : 0 ≤ d) (l : List α) (s e : ℚ)
    (he : 0 ≤ e) :
    min 1 (l.foldl (fun a m => if p m then min 1 (a + d) else a) s + e)
      = min 1 (s + d * ((l.filter p).length : ℚ) + e) := by
  rw [foldl_clamp p d hd]
  by_cases hk : (l.filter p).length = 0
  · rw [if_pos hk, hk]
    norm_num
  · rw [if_neg hk, min1_min1_add _ _ he]

theorem capsBonus_nonneg (t : String) : 0 ≤ capsBonus t := by
  unfold capsBonus
  split <;> norm_num

theorem calculateIntensity_eq_spec (t : String) (b : ℚ) :
    calculateIntensity t b = intensitySpec t b := by
  simp only [calculateIntensity, intensitySpec, countMatched]
  congr 1
  have hmed : ∀ s e : ℚ, 0 ≤ e →
      min 1 (mediumMarkers.foldl
        (fun a m => if chSub m.data (lowerData t) then min 1 (a + 1/10) else a) s + e)
        = min 1 (s + 1/10 * ((mediumMarkers.filter
            (fun m => chSub m.data (lowerData t))).length : ℚ) + e) :=
    fun s e he => min1_foldl_add _ _ (by norm_num) _ s e he
  have hhigh : ∀ s e : ℚ, 0 ≤ e →
      min 1 (highMarkers.foldl
        (fun a m => if chSub m.data (lowerData t) then min 1 (a + 3/10) else a) s + e)
        = min 1 (s + 3/10 * ((highMarkers.filter
            (fun m => chSub m.data (lowerData t))).length : ℚ) + e) :=
    fun s e he => min1_foldl_add _ _ (by norm_num) _ s e he
  by_cases hc : 3/10 < capsFrac t
  · rw [if_pos hc, min1_idem, capsBonus, if_pos hc, hmed _ _ (by norm_num), add_assoc,
      hhigh _ _ (by positivity)]
    ring_nf
  · rw [if_neg hc, capsBonus, if_neg hc, add_zero, ← add_zero (mediumMarkers.foldl _ _),
      hmed _ _ le_rfl, add_zero, add_assoc, hhigh _ _ (by positivity)]
    ring_nf

theorem qTrunc_mono {q r : ℚ} (h : q ≤ r) : qTrunc q ≤ qTrunc r := by
  unfold qTrunc
  rcases le_or_lt 0 q with hq | hq
  · rw [if_pos hq, if_pos (hq.trans h)]
    exact Int.floor_le_floor h
  · rcases le_or_lt 0 r with hr | hr
    · rw [if_neg (not_le.mpr hq), if_pos hr]
      refine le_trans (Int.ceil_le.mpr ?_) (Int.floor_nonneg.mpr hr)
      exact_mod_cast hq.le
    · rw [if_neg (not_le.mpr hq), if_neg (not_le.mpr hr)]
      exact Int.ceil_le_ceil h

theorem qTrunc_clamp (x : ℚ) :
    max 100 (min 300 (qTrunc x)) = qTrunc (max 100 (min 300 x)) := by
  have h100 : qTrunc 100 = 100 := by norm_num [qTrunc]
  have h300 : qTrunc 300 = 300 := by norm_num [qTrunc]
  rcases le_total x 100 with h1 | h1
  · have hx : qTrunc x ≤ 100 := h100 ▸ qTrunc_mono h1
    rw [min_eq_right (h1.trans (by norm_num)), max_eq_left h1, h100,
      min_eq_right (hx.trans (by norm_num)), max_eq_left hx]
  · rcases le_total x 300 with h2 | h2
    · have ha : 100 ≤ qTrunc x := h100 ▸ qTrunc_mono h1
      have hb : qTrunc x ≤ 300 := h300 ▸ qTrunc_mono h2
      rw [min_eq_right h2, max_eq_right h1, min_eq_right hb, max_eq_right ha]
    · have hx : 300 ≤ qTrunc x := h300 ▸ qTrunc_mono h2
      rw [min_eq_left h2, max_eq_right (by norm_num : (100:ℚ) ≤ 300), h300,
        min_eq_left hx, max_eq_right (by norm_num : (100:ℤ) ≤ 300)]

theorem filter_length_mono {α : Type} (l : List α) (p q : α → Bool)
    (h : ∀ x ∈ l, p x = true → q x = true) :
    (l.filter p).length ≤ (l.filter q).length := by
  induction l with
  | nil => simp
  | cons a rest ih =>
    have ih' := ih (fun x hx => h x (List.mem_cons_of_mem a hx))
    by_cases hp : p a
    · rw [List.filter_cons_of_pos hp,
        List.filter_cons_of_pos (h a (List.mem_cons_self a rest) hp)]
      simpa using ih'
    · rw [List.filter_cons_of_neg hp]
      by_cases hq : q a
      · rw [List.filter_cons_of_pos hq]
        exact le_trans ih' (by simp)
      · rw [List.filter_cons_of_neg hq]
        exact ih'

theorem voiceMappings_lookup_of_miss (s : String)
    (h : s ∉ (["happy", "excited", "sad", "angry", "worried", "surprised",
      "disgusted", "neutral"] : List String)) :
    voiceMappings.lookup s = none := by
  simp only [List.mem_cons, List.not_mem_nil, or_false, not_or] at h
  obtain ⟨h1, h2, h3, h4, h5, h6, h7, h8⟩ := h
  simp [voiceMappings, List.lookup, beq_eq_false_iff_ne.mpr h1, beq_eq_false_iff_ne.mpr h2,
    beq_eq_false_iff_ne.mpr h3, beq_eq_false_iff_ne.mpr h4, beq_eq_false_iff_ne.mpr h5,
    beq_eq_false_iff_ne.mpr h6, beq_eq_false_iff_ne.mpr h7, beq_eq_false_iff_ne.mpr h8]

/-- C1: for every base whose fields lie in the stated ranges (rate in
[100,300], pitch in [-50,50], volume in [0.1,1.0], emphasis among none,
moderate, strong) and every intensity in [0,1], the scaled parameters
satisfy 100 <= rate <= 300, -50 <= pitch <= 50, 0.1 <= volume <= 1.0,
and emphasis stays among none, moderate, strong. -/
theorem c1_scale_bounds (b : VoiceParameters) (i : ℚ)
    (hr1 : 100 ≤ b.rate) (hr2 : b.rate ≤ 300)
    (hp1 : -50 ≤ b.pitch) (hp2 : b.pitch ≤ 50)
    (hv1 : 1/10 ≤ b.volume) (hv2 : b.volume ≤ 1)
    (he : b.emphasis ∈ (["none", "moderate", "strong"] : List String))
    (hi0 : 0 ≤ i) (hi1 : i ≤ 1) :
    100 ≤ (applyIntensityScaling b i).rate ∧ (applyIntensityScaling b i).rate ≤ 300 ∧
      -50 ≤ (applyIntensityScaling b i).pitch ∧ (applyIntensityScaling b i).pitch ≤ 50 ∧
      1/10 ≤ (applyIntensityScaling b i).volume ∧ (applyIntensityScaling b i).volume ≤ 1 ∧
      (applyIntensityScaling b i).emphasis ∈ (["none", "moderate", "strong"] : List String) := by
  simp only [applyIntensityScaling]
  refine ⟨le_max_left _ _, max_le (by norm_num) (min_le_left _ _),
    le_max_left _ _, max_le (by norm_num) (min_le_left _ _),
    le_max_left _ _, max_le (by norm_num) (min_le_left _ _), ?_⟩
  by_cases hc : 6/10 < i
  · rw [if_pos hc]
    exact he
  · rw [if_neg hc]
    simp

/-- Witness for C1 at the neutral base parameters and intensity 1/2. -/
theorem c1_scale_bounds_witness :
    ((100:ℤ) ≤ (⟨200, 0, 85/100, "none"⟩ : VoiceParameters).rate ∧
      (⟨200, 0, 85/100, "none"⟩ : VoiceParameters).rate ≤ 300 ∧
      -50 ≤ (⟨200, 0, 85/100, "none"⟩ : VoiceParameters).pitch ∧
      (⟨200, 0, 85/100, "none"⟩ : VoiceParameters).pitch ≤ 50 ∧
      1/10 ≤ (⟨200, 0, 85/100, "none"⟩ : VoiceParameters).volume ∧
      (⟨200, 0, 85/100, "none"⟩ : VoiceParameters).volume ≤ 1 ∧
      (⟨200, 0, 85/100, "none"⟩ : VoiceParameters).emphasis ∈
        (["none", "moderate", "strong"] : List String) ∧
      (0:ℚ) ≤ 1/2 ∧ (1:ℚ)/2 ≤ 1) ∧
    (100 ≤ (applyIntensityScaling ⟨200, 0, 85/100, "none"⟩ (1/2)).rate ∧
      (applyIntensityScaling ⟨200, 0, 85/100, "none"⟩ (1/2)).rate ≤ 300 ∧
      -50 ≤ (applyIntensityScaling ⟨200, 0, 85/100, "none"⟩ (1/2)).pitch ∧
      (applyIntensityScaling ⟨200, 0, 85/100, "none"⟩ (1/2)).pitch ≤ 50 ∧
      1/10 ≤ (applyIntensityScaling ⟨200, 0, 85/100, "none"⟩ (1/2)).volume ∧
      (applyIntensityScaling ⟨200, 0, 85/100, "none"⟩ (1/2)).volume ≤ 1 ∧
      (applyIntensityScaling ⟨200, 0, 85/100, "none"⟩ (1/2)).emphasis ∈
        (["none", "moderate", "strong"] : List String)) :=
  ⟨⟨by norm_num, by norm_num, by norm_num, by norm_num, by norm_num, by norm_num,
      by decide, by norm_num, by norm_num⟩,
    c1_scale_bounds ⟨200, 0, 85/100, "none"⟩ (1/2) (by norm_num) (by norm_num) (by norm_num)
      (by norm_num) (by norm_num) (by norm_num) (by decide) (by norm_num) (by norm_num)⟩

/-- C2 counterexample: at base rate 203 (other fields neutral) and
intensity 1/2 the code's scaled rate is 203, obtained by truncating
203.75 toward zero, while the claimed clamp-and-round-to-nearest value
is 204, so the claim as stated is false. -/
theorem c2_rate_counterexample :
    (applyIntensityScaling ⟨203, 0, 85/100, "none"⟩ (1/2)).rate ≠
      rateClaimed ⟨203, 0, 85/100, "none"⟩ (1/2) := by
  have hexpr : (((⟨203, 0, 85/100, "none"⟩ : VoiceParameters).rate : ℚ)
      + (((⟨203, 0, 85/100, "none"⟩ : VoiceParameters).rate : ℚ) - 200) * (1/2) * (1/2))
      = 815/4 := by
    norm_num
  have hL : (applyIntensityScaling ⟨203, 0, 85/100, "none"⟩ (1/2)).rate = 203 := by
    simp only [applyIntensityScaling, hexpr]
    have ht : qTrunc (815/4) = 203 := by norm_num [qTrunc]
    rw [ht]
    decide
  have hR : rateClaimed ⟨203, 0, 85/100, "none"⟩ (1/2) = 204 := by
    rw [rateClaimed, hexpr, min_eq_right (by norm_num), max_eq_right (by norm_num),
      round_eq]
    norm_num
  rw [hL, hR]
  decide

/-- C2 amended: for every base and intensity in [0,1], the scaled rate
equals the formula base.rate + (base.rate - 200) * intensity * 0.5,
clamped to [100,300] and truncated toward zero (the meaning of the
source's int conversion), not rounded to nearest. -/
theorem c2_rate_trunc (b : VoiceParameters) (i : ℚ) (h0 : 0 ≤ i) (h1 : i ≤ 1) :
    (applyIntensityScaling b i).rate
      = qTrunc (max 100 (min 300 ((b.rate : ℚ) + ((b.rate : ℚ) - 200) * i * (1/2)))) := by
  simp only [applyIntensityScaling]
  exact qTrunc_clamp _

/-- Witness for the amended C2 at the sad base parameters and intensity 1/2. -/
theorem c2_rate_trunc_witness :
    ((0:ℚ) ≤ 1/2 ∧ (1:ℚ)/2 ≤ 1) ∧
    (applyIntensityScaling ⟨160, -10, 7/10, "none"⟩ (1/2)).rate
      = qTrunc (max 100 (min 300
          (((⟨160, -10, 7/10, "none"⟩ : VoiceParameters).rate : ℚ)
            + (((⟨160, -10, 7/10, "none"⟩ : VoiceParameters).rate : ℚ) - 200) * (1/2) * (1/2)))) :=
  ⟨⟨by norm_num, by norm_num⟩,
    c2_rate_trunc ⟨160, -10, 7/10, "none"⟩ (1/2) (by norm_num) (by norm_num)⟩

/-- C3: the scaled emphasis equals the base emphasis when intensity
exceeds 0.6 and is "none" when intensity is at most 0.6, regardless of
the base emphasis. -/
theorem c3_emphasis_gate (b : VoiceParameters) (i : ℚ) :
    (6/10 < i → (applyIntensityScaling b i).emphasis = b.emphasis) ∧
    (i ≤ 6/10 → (applyIntensityScaling b i).emphasis = "none") := by
  constructor
  · intro h
    simp only [applyIntensityScaling]
    rw [if_pos h]
  · intro h
    simp only [applyIntensityScaling]
    rw [if_neg (not_lt.mpr h)]

/-- Witness for C3: strong base emphasis survives intensity 0.7 and is
suppressed at intensity 0.5. -/
theorem c3_emphasis_gate_witness :
    (applyIntensityScaling ⟨220, 10, 95/100, "strong"⟩ (7/10)).emphasis
        = (⟨220, 10, 95/100, "strong"⟩ : VoiceParameters).emphasis ∧
    (applyIntensityScaling ⟨220, 10, 95/100, "strong"⟩ (1/2)).emphasis = "none" :=
  ⟨(c3_emphasis_gate ⟨220, 10, 95/100, "strong"⟩ (7/10)).1 (by norm_num),
    (c3_emphasis_gate ⟨220, 10, 95/100, "strong"⟩ (1/2)).2 (by norm_num)⟩

/-- C4: for every text and base confidence the intensity estimate
equals the closed form max(0.1, min(1.0, base + 0.3 * matched high
markers + 0.1 * matched medium markers + caps bonus)); every matching
marker contributes and the result is order-independent across marker
checks, since it is a function of the matched-marker counts alone. -/
theorem c4_estimate_closed_form (t : String) (b : ℚ) :
    calculateIntensity t b = intensitySpec t b :=
  calculateIntensity_eq_spec t b

/-- C5: for every text and base confidence in [0,1] the estimate is a
total function with value in [0.1, 1.0], and when no high or medium
marker matches and the caps ratio is at most 0.3 it equals
max(0.1, min(1.0, base)). -/
theorem c5_estimate_safe (t : String) (b : ℚ) (h0 : 0 ≤ b) (h1 : b ≤ 1) :
    (1/10 ≤ calculateIntensity t b ∧ calculateIntensity t b ≤ 1) ∧
    ((∀ m ∈ highMarkers, chSub m.data (lowerData t) = false) →
     (∀ m ∈ mediumMarkers, chSub m.data (lowerData t) = false) →
     capsFrac t ≤ 3/10 →
     calculateIntensity t b = max (1/10) (min 1 b)) := by
  constructor
  · rw [calculateIntensity_eq_spec]
    unfold intensitySpec
    exact ⟨le_max_left _ _, max_le (by norm_num) (min_le_left _ _)⟩
  · intro hh hm hc
    rw [calculateIntensity_eq_spec]
    unfold intensitySpec countMatched capsBonus
    have hfh : highMarkers.filter (fun m => chSub m.data (lowerData t)) = [] := by
      rw [List.filter_eq_nil_iff]
      intro a ha
      simp [hh a ha]
    have hfm : mediumMarkers.filter (fun m => chSub m.data (lowerData t)) = [] := by
      rw [List.filter_eq_nil_iff]
      intro a ha
      simp [hm a ha]
    rw [hfh, hfm, if_neg (not_lt.mpr hc)]
    norm_num

/-- Witness for C5 on the marker-free lowercase text "zz" with base 1/2. -/
theorem c5_estimate_safe_witness :
    ((0:ℚ) ≤ 1/2 ∧ (1:ℚ)/2 ≤ 1 ∧
      (∀ m ∈ highMarkers, chSub m.data (lowerData "zz") = false) ∧
      (∀ m ∈ mediumMarkers, chSub m.data (lowerData "zz") = false) ∧
      capsFrac "zz" ≤ 3/10) ∧
    (1/10 ≤ calculateIntensity "zz" (1/2) ∧ calculateIntensity "zz" (1/2) ≤ 1) ∧
    calculateIntensity "zz" (1/2) = max (1/10) (min 1 (1/2)) := by
  have hcaps : capsFrac "zz" ≤ 3/10 := by
    rw [capsFrac]
    norm_num [show ("zz".data.filter Char.isUpper).length = 0 from by decide]
  have H := c5_estimate_safe "zz" (1/2) (by norm_num) (by norm_num)
  exact ⟨⟨by norm_num, by norm_num, by decide, by decide, hcaps⟩,
    H.1, H.2 (by decide) (by decide) hcaps⟩

/-- C6: the estimate is monotone in matched markers: if every high or
medium marker matched by the first text is matched by the second, and
the caps bonus earned by the first is earned by the second, then with
the same base confidence the second estimate is at least the first. -/
theorem c6_estimate_monotone (b : ℚ) (t1 t2 : String)
    (hh : ∀ m ∈ highMarkers,
      chSub m.data (lowerData t1) = true → chSub m.data (lowerData t2) = true)
    (hm : ∀ m ∈ mediumMarkers,
      chSub m.data (lowerData t1) = true → chSub m.data (lowerData t2) = true)
    (hc : 3/10 < capsFrac t1 → 3/10 < capsFrac t2) :
    calculateIntensity t1 b ≤ calculateIntensity t2 b := by
  rw [calculateIntensity_eq_spec, calculateIntensity_eq_spec]
  unfold intensitySpec countMatched
  apply max_le_max le_rfl
  apply min_le_min le_rfl
  have hcb : capsBonus t1 ≤ capsBonus t2 := by
    unfold capsBonus
    by_cases hx : 3/10 < capsFrac t1
    · rw [if_pos hx, if_pos (hc hx)]
    · rw [if_neg hx]
      split <;> norm_num
  have hkh : ((highMarkers.filter (fun m => chSub m.data (lowerData t1))).length : ℚ)
      ≤ ((highMarkers.filter (fun m => chSub m.data (lowerData t2))).length : ℚ) := by
    exact_mod_cast filter_length_mono highMarkers _ _ hh
  have hkm : ((mediumMarkers.filter (fun m => chSub m.data (lowerData t1))).length : ℚ)
      ≤ ((mediumMarkers.filter (fun m => chSub m.data (lowerData t2))).length : ℚ) := by
    exact_mod_cast filter_length_mono mediumMarkers _ _ hm
  have m1 := mul_le_mul_of_nonneg_left hkh (by norm_num : (0:ℚ) ≤ 3/10)
  have m2 := mul_le_mul_of_nonneg_left hkm (by norm_num : (0:ℚ) ≤ 1/10)
  linarith

/-- Witness for C6: going from marker-free "zz" to "amazing" never
lowers the estimate. -/
theorem c6_estimate_monotone_witness :
    ((∀ m ∈ highMarkers,
        chSub m.data (lowerData "zz") = true → chSub m.data (lowerData "amazing") = true) ∧
      (∀ m ∈ mediumMarkers,
        chSub m.data (lowerData "zz") = true → chSub m.data (lowerData "amazing") = true) ∧
      (3/10 < capsFrac "zz" → 3/10 < capsFrac "amazing")) ∧
    calculateIntensity "zz" (1/2) ≤ calculateIntensity "amazing" (1/2) := by
  have hcaps : ¬ (3/10 < capsFrac "zz") := by
    rw [capsFrac]
    norm_num [show ("zz".data.filter Char.isUpper).length = 0 from by decide]
  exact ⟨⟨by decide, by decide, fun h => absurd h hcaps⟩,
    c6_estimate_monotone (1/2) "zz" "amazing" (by decide) (by decide)
      (fun h => absurd h hcaps)⟩

/-- C7: the base-parameter lookup is total: each of the eight table
keys returns its table entry, and any other string returns exactly the
neutral entry (rate 200, pitch 0, volume 0.85, emphasis none). -/
theorem c7_baseFor_total :
    (baseFor "happy" = ⟨220, 10, 95/100, "strong"⟩ ∧
      baseFor "excited" = ⟨240, 15, 1, "strong"⟩ ∧
      baseFor "sad" = ⟨160, -10, 7/10, "none"⟩ ∧
      baseFor "angry" = ⟨200, 5, 9/10, "strong"⟩ ∧
      baseFor "worried" = ⟨180, -5, 8/10, "moderate"⟩ ∧
      baseFor "surprised" = ⟨210, 12, 9/10, "strong"⟩ ∧
      baseFor "disgusted" = ⟨170, -8, 8/10, "none"⟩ ∧
      baseFor "neutral" = ⟨200, 0, 85/100, "none"⟩) ∧
    ∀ s : String,
      s ∉ (["happy", "excited", "sad", "angry", "worried", "surprised",
        "disgusted", "neutral"] : List String) →
      baseFor s = ⟨200, 0, 85/100, "none"⟩ := by
  constructor
  · exact ⟨rfl, rfl, rfl, rfl, rfl, rfl, rfl, rfl⟩
  · intro s hs
    rw [baseFor, voiceMappings_lookup_of_miss s hs]
    rfl

/-- Witness for C7: the unrecognized key "curious" yields the neutral entry. -/
theorem c7_baseFor_total_witness :
    ("curious" ∉ (["happy", "excited", "sad", "angry", "worried", "surprised",
      "disgusted", "neutral"] : List String)) ∧
    baseFor "curious" = ⟨200, 0, 85/100, "none"⟩ :=
  ⟨by decide, c7_baseFor_total.2 "curious" (by decide)⟩

/-- C8: the fallback heuristic returns happy with confidence 0.7 and
intensity 0.6 when more positive than negative list words occur in the
lower-cased text, angry 0.7/0.6 when more negative than positive, and
neutral 0.8/0.3 otherwise; in particular the two example sentences
yield happy and angry respectively. -/
theorem c8_fallback_heuristic :
    (∀ t : String,
      (negCount t < posCount t → basicSentimentAnalysis t = ⟨"happy", 7/10, 6/10⟩) ∧
      (posCount t < negCount t → basicSentimentAnalysis t = ⟨"angry", 7/10, 6/10⟩) ∧
      (¬ negCount t < posCount t → ¬ posCount t < negCount t →
        basicSentimentAnalysis t = ⟨"neutral", 8/10, 3/10⟩)) ∧
    basicSentimentAnalysis "This is a great and wonderful day" = ⟨"happy", 7/10, 6/10⟩ ∧
    basicSentimentAnalysis "I hate this awful terrible mess" = ⟨"angry", 7/10, 6/10⟩ := by
  refine ⟨fun t => ⟨fun h => ?_, fun h => ?_, fun h1 h2 => ?_⟩, ?_, ?_⟩
  · rw [basicSentimentAnalysis, if_pos h]
  · rw [basicSentimentAnalysis, if_neg (by omega), if_pos h]
  · rw [basicSentimentAnalysis, if_neg h1, if_neg h2]
  · have hp : posCount "This is a great and wonderful day" = 2 := by decide
    have hn : negCount "This is a great and wonderful day" = 0 := by decide
    rw [basicSentimentAnalysis, hp, hn, if_pos (by norm_num)]
  · have hp : posCount "I hate this awful terrible mess" = 0 := by decide
    have hn : negCount "I hate this awful terrible mess" = 3 := by decide
    rw [basicSentimentAnalysis, hp, hn, if_neg (by norm_num), if_pos (by norm_num)]

/-- Witness for C8 on the text "good", which has one positive and no
negative list word. -/
theorem c8_fallback_heuristic_witness :
    (negCount "good" < posCount "good") ∧
    basicSentimentAnalysis "good" = ⟨"happy", 7/10, 6/10⟩ :=
  ⟨by decide, (c8_fallback_heuristic.1 "good").1 (by decide)⟩

/-- C9: a classifier failure never propagates: whether the classifier
is unavailable (None) or raises during inference, detection returns
exactly the fallback heuristic's result and thus always yields an
EmotionResult. -/
theorem c9_classifier_failure_fallback (text : String)
    (classifier : Option (String → Except String (String × ℚ)))
    (h : classifier = none ∨ ∃ f e, classifier = some f ∧ f text = Except.error e) :
    detectEmotion classifier text = basicSentimentAnalysis text := by
  rcases h with h | ⟨f, e, hf, he⟩
  · rw [h, detectEmotion]
  · rw [hf, detectEmotion, he]

/-- Witness for C9 with an unavailable classifier on the text "hello". -/
theorem c9_classifier_failure_fallback_witness :
    detectEmotion none "hello" = basicSentimentAnalysis "hello" :=
  c9_classifier_failure_fallback "hello" none (Or.inl rfl)

/-- C10: the low-intensity marker list never affects the estimate: two
texts matching the same high and medium markers with the same caps
bonus get the same estimate for every base confidence, regardless of
any low markers they contain. -/
theorem c10_low_markers_inert (b : ℚ) (t1 t2 : String)
    (hh : ∀ m ∈ highMarkers, chSub m.data (lowerData t1) = chSub m.data (lowerData t2))
    (hm : ∀ m ∈ mediumMarkers, chSub m.data (lowerData t1) = chSub m.data (lowerData t2))
    (hc : capsBonus t1 = capsBonus t2) :
    calculateIntensity t1 b = calculateIntensity t2 b := by
  rw [calculateIntensity_eq_spec, calculateIntensity_eq_spec]
  unfold intensitySpec countMatched
  rw [List.filter_congr (fun m hx => hh m hx), List.filter_congr (fun m hx => hm m hx), hc]

/-- Witness for C10: the text "okay fine." contains only low markers,
"zz" contains none, and both get the same estimate at base 1/2. -/
theorem c10_low_markers_inert_witness :
    ((∀ m ∈ highMarkers,
        chSub m.data (lowerData "okay fine.") = chSub m.data (lowerData "zz")) ∧
      (∀ m ∈ mediumMarkers,
        chSub m.data (lowerData "okay fine.") = chSub m.data (lowerData "zz")) ∧
      capsBonus "okay fine." = capsBonus "zz" ∧
      (∃ m ∈ lowMarkers, chSub m.data (lowerData "okay fine.") = true) ∧
      (∀ m ∈ lowMarkers, chSub m.data (lowerData "zz") = false)) ∧
    calculateIntensity "okay fine." (1/2) = calculateIntensity "zz" (1/2) := by
  have e1 : ¬ (3/10 < capsFrac "okay fine.") := by
    rw [capsFrac]
    norm_num [show ("okay fine.".data.filter Char.isUpper).length = 0 from by decide]
  have e2 : ¬ (3/10 < capsFrac "zz") := by
    rw [capsFrac]
    norm_num [show ("zz".data.filter Char.isUpper).length = 0 from by decide]
  have hcb : capsBonus "okay fine." = capsBonus "zz" := by
    rw [capsBonus, capsBonus, if_neg e1, if_neg e2]
  exact ⟨⟨by decide, by decide, hcb, by decide, by decide⟩,
    c10_low_markers_inert (1/2) "okay fine." "zz" (by decide) (by decide) hcb⟩
